import Mathlib

/-
Verification development for the Gradebook application (src/app.py).

The file shallowly embeds the data model and the pure core of the program:
column canonicalization (`canonical`), workbook normalization
(`read_workbook`), identity filtering (`gradebook_summary`, the student-tab
row filter), grade aggregation (`compute_totals`) and the cloud-URL query
rewriting (`coerce_download_url`, source name `_coerce_download_url`).

Modelling conventions:
* A spreadsheet cell is a `Cell`: a float NaN (`naF`, numpy `nan`), a pandas
  missing marker (`naPd`, `pd.NA`), a string, or a number.  Python floats are
  modelled as `Rat`; float NaN results are modelled as `Option.none`.
* pandas `astype(str)` is `pyStr`: it renders `nan` as the string "nan" and
  `pd.NA` as the string "<NA>", exactly as pandas does.  The rendering of
  numeric cells as strings (`ratRender`) abstracts Python float repr; no
  claim depends on it.
* Python `str.strip()` / `str.lower()` are `pyStrip` / `pyLower`, the ASCII
  fragment of the Python functions, implemented structurally on `String.data`
  so that concrete evaluation works inside the kernel.
* `pd.to_numeric(errors="coerce")` is `toNumericCell`; its string parsing
  (`parseDec`) covers signed decimal literals (exponent forms are not
  modelled; no claim exercises them).
* A raised Python exception inside `read_workbook` (the `_aliases` edge
  paths) is `Except.error ()`; the surrounding app catches it.
* pandas DataFrames are lists of rows.  Duplicate column labels after
  renaming (two raw headers canonicalizing to the same name) are resolved
  first-label-wins (`List.findIdx?`); pandas behaviour for that degenerate
  case is not modelled and no claim exercises it.
-/

/-! ## Python string primitives -/

def isSpaceChar (c : Char) : Bool :=
  c == ' ' || c == '\t' || c == '\n' || c == '\r' || c == '\x0b' || c == '\x0c'

/-- Python `str.strip()` (ASCII whitespace fragment). -/
def pyStrip (s : String) : String :=
  ⟨((s.data.dropWhile isSpaceChar).reverse.dropWhile isSpaceChar).reverse⟩

def pyLowerChar (c : Char) : Char :=
  if 'A' ≤ c && c ≤ 'Z' then Char.ofNat (c.toNat + 32) else c

/-- Python `str.lower()` (ASCII fragment). -/
def pyLower (s : String) : String :=
  ⟨s.data.map pyLowerChar⟩

/-- Python `str.endswith(suffix)`. -/
def pyEndsWith (s suffix : String) : Bool :=
  suffix.data.isSuffixOf s.data

/-! ## Cells -/

/-- One spreadsheet / DataFrame cell. `naF` is a float NaN (numpy `nan`),
`naPd` is the pandas missing marker `pd.NA` used when a whole standard
column is absent from a sheet. -/
inductive Cell where
  | naF
  | naPd
  | str (s : String)
  | num (q : Rat)
deriving DecidableEq, Repr

/-- Abstract stand-in for Python float/`repr` rendering of numbers; the
claims never depend on its exact output. -/
def ratRender (q : Rat) : String :=
  toString q.num ++ (if q.den == 1 then "" else "/" ++ toString q.den)

/-- pandas `astype(str)` on one cell: `str(np.nan) = "nan"`,
`str(pd.NA) = "<NA>"`. -/
def pyStr : Cell → String
  | .naF => "nan"
  | .naPd => "<NA>"
  | .str s => s
  | .num q => ratRender q

/-- pandas `isna` on one cell. -/
def isCellNa : Cell → Bool
  | .naF => true
  | .naPd => true
  | _ => false

/-! ## Numeric coercion (`pd.to_numeric(errors="coerce")`) -/

def parseDigits (l : List Char) : Option Nat :=
  if l.isEmpty then none
  else l.foldl
    (fun acc c =>
      match acc with
      | none => none
      | some n => if c.isDigit then some (n * 10 + (c.toNat - 48)) else none)
    (some 0)

def splitOnChar (c : Char) : List Char → List (List Char)
  | [] => [[]]
  | x :: xs =>
      let r := splitOnChar c xs
      if x == c then [] :: r
      else
        match r with
        | [] => [[x]]
        | y :: ys => (x :: y) :: ys

/-- Parsing of a signed decimal literal, the fragment of Python float
parsing used by `pd.to_numeric` that the model covers. -/
def parseDec (s : String) : Option Rat :=
  let l := (pyStrip s).data
  let sb : Int × List Char :=
    match l with
    | '-' :: rest => (-1, rest)
    | '+' :: rest => (1, rest)
    | _ => (1, l)
  match splitOnChar '.' sb.2 with
  | [ip] => (parseDigits ip).map (fun n => ((sb.1 * (n : Int) : Int) : Rat))
  | [ip, fp] =>
      if ip.isEmpty && fp.isEmpty then none
      else
        match (if ip.isEmpty then some 0 else parseDigits ip),
              (if fp.isEmpty then some 0 else parseDigits fp) with
        | some i, some f =>
            some (((sb.1 : Int) : Rat) * ((i : Rat) + (f : Rat) / ((10 : Rat) ^ fp.length)))
        | _, _ => none
  | _ => none

/-- `pd.to_numeric(errors="coerce")` on one cell: numbers pass through,
missing markers and unparseable strings become float NaN. -/
def toNumericCell : Cell → Cell
  | .num q => .num q
  | .naF => .naF
  | .naPd => .naF
  | .str s =>
      match parseDec s with
      | some q => .num q
      | none => .naF

/-! ## Column canonicalization (src/app.py lines 23-47, 67-75) -/

/-- `DEFAULT_SYNONYMS`, in source (dict-insertion) order. -/
def SYNONYM_TABLE : List (String × List String) :=
  [("student id", ["student id", "id", "sid", "student_number", "student num", "studentno", "student#"]),
   ("first name", ["first name", "first", "given"]),
   ("last name", ["last name", "last", "family", "surname"]),
   ("course", ["course", "class", "section"]),
   ("term", ["term", "semester", "session"]),
   ("assessment", ["assessment", "assignment", "quiz", "test", "task", "name"]),
   ("score", ["score", "mark", "points", "grade"]),
   ("out of", ["out of", "max", "total", "points possible", "denominator"]),
   ("weight", ["weight", "weight %", "%", "percent", "percentage"]),
   ("secret", ["secret", "pin", "dob_last4"])]

def STANDARD_COLUMNS : List String :=
  ["student id", "first name", "last name", "course", "term",
   "assessment", "score", "out of", "weight", "secret"]

/-- The custom alias map built from the `_aliases` sheet
(lowercased raw header ↦ canonical key). -/
abbrev AliasMap := List (String × String)

/-- First-match association lookup, modelling Python dict access on the
dicts of the source (alias map, `parse_qs` result, sheet directory). -/
def alookup {α : Type} (k : String) : List (String × α) → Option α
  | [] => none
  | p :: t => if p.1 = k then some p.2 else alookup k t

/-- The built-in synonym scan inside `canonical`:
`for standard, syns in DEFAULT_SYNONYMS.items(): if c == standard or c in syns`. -/
def canonicalCore (c : String) : Option String :=
  (SYNONYM_TABLE.find? (fun p => c == p.1 || p.2.contains c)).map (fun p => p.1)

/-- `canonical(col)` from `read_workbook` (lines 67-75): lowercase/trim the
header, apply the custom alias map first, otherwise scan the synonyms. -/
def canonical (customMap : AliasMap) (col : String) : Option String :=
  let c := pyLower (pyStrip col)
  match alookup c customMap with
  | some k => some k
  | none => canonicalCore c

/-- Python truthiness of the canonicalization result (`if can:` at line 88):
`None` and the empty string are falsy, so such headers are not renamed. -/
def canonicalT (customMap : AliasMap) (col : String) : Option String :=
  match canonical customMap col with
  | some k => if k = "" then none else some k
  | none => none

/-- The column label a raw header carries after `df.rename(columns=colmap)`:
renamed to its truthy canonical name, otherwise kept as is. -/
def labelOf (customMap : AliasMap) (h : String) : String :=
  (canonicalT customMap h).getD h

/-! ## Sheets and workbooks -/

/-- A decoded sheet: a header row and data rows (each row aligned
positionally with the headers; rows are full width). -/
structure Sheet where
  headers : List String
  rows : List (List Cell)
deriving DecidableEq, Repr

/-- A decoded workbook: named sheets in workbook order
(`xl.sheet_names`). -/
abbrev Workbook := List (String × Sheet)

/-- The cell a raw row holds for standard column `col` after renaming and
the `df[col] = pd.NA` fill (lines 85-94): the first column whose
post-rename label is `col`, else the `pd.NA` filler. -/
def rawCell (am : AliasMap) (s : Sheet) (r : List Cell) (col : String) : Cell :=
  match s.headers.findIdx? (fun h => labelOf am h == col) with
  | some i => (r.get? i).getD .naF
  | none => .naPd

/-! ## Normalized grade rows (src/app.py lines 92-108) -/

/-- One row of the long normalized grade table (`STANDARD_COLUMNS`
plus the `_sheet` provenance column). -/
structure GradeRow where
  studentId : Cell
  firstName : Cell
  lastName : Cell
  course : Cell
  term : Cell
  assessment : Cell
  secret : Cell
  score : Cell
  outOf : Cell
  weight : Cell
  sheet : String
deriving DecidableEq, Repr

/-- `df[c].astype(str).str.strip()` applied to one cell. -/
def strField (c : Cell) : Cell :=
  .str (pyStrip (pyStr c))

/-- The transforms of lines 98-107 applied to one raw row that survived
`dropna(subset=["student id"])`. -/
def mkGradeRow (am : AliasMap) (s : Sheet) (name : String) (r : List Cell) : GradeRow :=
  let g := rawCell am s r
  let outN := toNumericCell (g "out of")
  { studentId := strField (g "student id")
    firstName := strField (g "first name")
    lastName := strField (g "last name")
    course := strField (g "course")
    term := strField (g "term")
    assessment := strField (g "assessment")
    secret := strField (g "secret")
    score := toNumericCell (g "score")
    outOf := if isCellNa outN then .num 100 else outN
    weight := toNumericCell (g "weight")
    sheet := name }

/-- Normalization of one grade sheet: drop rows whose raw `student id`
cell is missing (line 96, `dropna`), then apply the column transforms. -/
def normalizeSheet (am : AliasMap) (name : String) (s : Sheet) : List GradeRow :=
  (s.rows.filter (fun r => !isCellNa (rawCell am s r "student id"))).map
    (mkGradeRow am s name)

/-! ## The `_aliases` sheet (src/app.py lines 57-65) -/

/-- Build the custom alias map.  `Except.error ()` models the two paths on
which the Python code raises: the trimmed/lowered name `_aliases` exists but
no sheet is literally named `_aliases` (`pd.read_excel(sheet_name="_aliases")`
raises), and the header-set check passes case-insensitively but no column is
literally named `key` / `value` (`row["key"]` raises).  Later alias rows
override earlier ones for the same value, as in a Python dict; the list is
built newest-first so that `List.lookup` returns the latest binding. -/
def buildAliasMap (wb : Workbook) : Except Unit AliasMap :=
  if wb.any (fun p => pyLower (pyStrip p.1) == "_aliases") then
    match alookup "_aliases" wb with
    | none => .error ()
    | some ali =>
        let lowered := ali.headers.map (fun c => pyLower (pyStrip c))
        if lowered.contains "key" && lowered.contains "value" then
          match ali.headers.findIdx? (fun h => h == "key"),
                ali.headers.findIdx? (fun h => h == "value") with
          | some ki, some vi =>
              .ok (ali.rows.foldl
                (fun m r =>
                  let k := pyLower (pyStrip (pyStr ((r.get? ki).getD .naF)))
                  let v := pyLower (pyStrip (pyStr ((r.get? vi).getD .naF)))
                  (v, k) :: m)
                [])
          | _, _ => .error ()
        else .ok []
  else .ok []

/-! ## read_workbook (src/app.py lines 49-115) -/

/-- `read_workbook`: build the alias map, then stack the normalization of
every sheet not named `_aliases` (trimmed, case-insensitive), in workbook
order, returning the long grade table and the list of sheet names read. -/
def read_workbook (wb : Workbook) : Except Unit (List GradeRow × List String) :=
  match buildAliasMap wb with
  | .error e => .error e
  | .ok am =>
      let graded := wb.filter (fun p => pyLower (pyStrip p.1) != "_aliases")
      .ok ((graded.map (fun p => normalizeSheet am p.1 p.2)).flatten,
           graded.map (fun p => p.1))

/-! ## gradebook_summary (src/app.py lines 118-124) -/

/-- Python truthiness of an `Optional[str]`. -/
def truthyOpt : Option String → Bool
  | none => false
  | some s => s != ""

/-- Line 119: `df["student id"].str.lower() == sid.lower()`
(`.str.lower()` yields a non-matching NaN on non-string cells). -/
def sidMatch (r : GradeRow) (sid : String) : Bool :=
  match r.studentId with
  | .str s => pyLower s == pyLower sid
  | _ => false

/-- Line 121: keep a row iff
`q["secret"].astype(str).str.strip() == str(secret).strip()` or
`q["secret"].isna()`. -/
def secretKeep (r : GradeRow) (sec : String) : Bool :=
  pyStrip (pyStr r.secret) == pyStrip sec || isCellNa r.secret

/-- Line 123: `q["course"].str.lower() == course.lower()`. -/
def courseMatch (r : GradeRow) (course : String) : Bool :=
  match r.course with
  | .str s => pyLower s == pyLower course
  | _ => false

/-- `gradebook_summary(df, sid, secret, course)`: filter by student id,
then by the secret (only when `secret` is truthy), then by the course
(only when `course` is truthy). -/
def gradebook_summary (df : List GradeRow) (sid : String)
    (secret : Option String) (course : Option String) : List GradeRow :=
  let q := df.filter (fun r => sidMatch r sid)
  let q := if truthyOpt secret then q.filter (fun r => secretKeep r (secret.getD "")) else q
  if truthyOpt course then q.filter (fun r => courseMatch r (course.getD "")) else q

/-! ## compute_totals (src/app.py lines 127-157) -/

/-- `fillna(d)` view of a numeric cell (post-normalization numeric columns
hold only numbers or NaN). -/
def numD (c : Cell) (d : Rat) : Rat :=
  match c with
  | .num q => q
  | _ => d

/-- The weighted-formula divisor `q["out of"].replace(0, pd.NA).fillna(100)`
applied to one cell: `0` is replaced by `100`, missing becomes `100`. -/
def outOfDiv (c : Cell) : Rat :=
  match c with
  | .num q => if q = 0 then 100 else q
  | _ => 100

/-- The overall-percent component of `compute_totals` (the detail table the
source also returns carries no aggregate logic and is not embedded).
`none` models a float NaN result. -/
def compute_totals (q : List GradeRow) : Option Rat :=
  if q.isEmpty then none
  else if q.any (fun r => !isCellNa r.weight) then
    let wsum : Rat := (q.map (fun r => numD r.weight 0)).sum
    if wsum = 0 then
      let denom : Rat := (q.map (fun r => numD r.outOf 100)).sum
      if denom ≠ 0 then
        some (((q.map (fun r => numD r.score 0)).sum / denom) * 100)
      else none
    else
      let contrib : Rat :=
        (q.map (fun r => (numD r.score 0 / outOfDiv r.outOf) * numD r.weight 0)).sum
      some (contrib / wsum * 100)
  else
    let denom : Rat := (q.map (fun r => numD r.outOf 100)).sum
    if denom ≠ 0 then
      some (((q.map (fun r => numD r.score 0)).sum / denom) * 100)
    else none

/-! ## Student-tab row filter (src/app.py lines 243-245) -/

/-- Line 243: `df["student id"].astype(str).str.lower() == sid.strip().lower()`. -/
def sidMatch2 (r : GradeRow) (sid : String) : Bool :=
  pyLower (pyStr r.studentId) == pyLower (pyStrip sid)

/-- Lines 243-245: the pre-lookup row filter of the student tab; the
secret filter applies only when the entered secret string is truthy. -/
def student_sid_rows (df : List GradeRow) (sid secret : String) : List GradeRow :=
  let rows := df.filter (fun r => sidMatch2 r sid)
  if secret != "" then rows.filter (fun r => secretKeep r secret) else rows

/-! ## Cloud-URL coercion (src/app.py lines 159-173, `_coerce_download_url`) -/

/-- A `parse_qs` result: keys in dict order, each with its value list. -/
abbrev QDict := List (String × List String)

/-- Python dict assignment `q[k] = v`: overwrite in place if the key
exists, otherwise append (dict insertion order). -/
def dictSet (q : QDict) (k : String) (v : List String) : QDict :=
  if (alookup k q).isSome then
    q.map (fun p => if p.1 = k then (k, v) else p)
  else q ++ [(k, v)]

/-- Lines 164-170: the query-dict transform of `_coerce_download_url`,
ending with `{k: v[0] for k, v in q.items()}` (only the first value of a
repeated parameter is kept; `parse_qs` value lists are non-empty, so the
`headD` default is never used). -/
def transformQuery (netloc : String) (q : QDict) : List (String × String) :=
  let q1 := if pyEndsWith netloc "sharepoint.com" || pyEndsWith netloc "1drv.ms" then
              (if (alookup "download" q).isNone then dictSet q "download" ["1"] else q)
            else q
  let q2 := if pyEndsWith netloc "dropbox.com" then dictSet q1 "dl" ["1"] else q1
  q2.map (fun p => (p.1, p.2.headD ""))

/-- The `urlparse`/`parse_qs` view of a URL. -/
structure ParsedUrl where
  scheme : String
  netloc : String
  path : String
  params : String
  query : QDict
  fragment : String

/-- `_coerce_download_url`: `parse` models `urlparse` + `parse_qs` (with
`none` for the raising/`except` path), `unparse` models
`urlencode` + `urlunparse` on the unchanged components and the transformed
query; a parse failure returns the input unchanged. -/
def coerce_download_url (parse : String → Option ParsedUrl)
    (unparse : ParsedUrl → List (String × String) → String) (u : String) : String :=
  match parse u with
  | none => u
  | some pr => unparse pr (transformQuery pr.netloc pr.query)


/-! ## Concrete inputs used to settle the claims -/

/-- A grade sheet with no `secret` column (and no `Max` column). -/
def sheetQuiz1 : Sheet :=
  ⟨["student id", "course", "assessment", "score"],
   [[.str "S1", .str "Math", .str "Q1", .num 9]]⟩

def wbNoSecret : Workbook := [("Quiz1", sheetQuiz1)]

/-- The single normalized row `read_workbook` produces from `wbNoSecret`:
the absent `secret` column has been coerced to the string form of `pd.NA`. -/
def rowNoSecret : GradeRow :=
  ⟨.str "S1", .str "<NA>", .str "<NA>", .str "Math", .str "<NA>", .str "Q1",
   .str "<NA>", .num 9, .num 100, .naF, "Quiz1"⟩

def sheetCreds : Sheet :=
  ⟨["student id", "score"], [[.str "S1", .num 5]]⟩

def sheetQuizB : Sheet :=
  ⟨["student id", "score"], [[.str "S2", .num 7]]⟩

/-- A workbook whose first sheet is literally named `credentials`. -/
def wbCreds : Workbook := [("credentials", sheetCreds), ("Quiz", sheetQuizB)]

def rowCredsS1 : GradeRow :=
  ⟨.str "S1", .str "<NA>", .str "<NA>", .str "<NA>", .str "<NA>", .str "<NA>",
   .str "<NA>", .num 5, .num 100, .naF, "credentials"⟩

def rowQuizS2 : GradeRow :=
  ⟨.str "S2", .str "<NA>", .str "<NA>", .str "<NA>", .str "<NA>", .str "<NA>",
   .str "<NA>", .num 7, .num 100, .naF, "Quiz"⟩

/-- A sheet whose only row has a whitespace-only `student id` cell. -/
def sheetBlankId : Sheet := ⟨["student id"], [[.str " "]]⟩

def wbBlankId : Workbook := [("S", sheetBlankId)]

def rowBlankId : GradeRow :=
  ⟨.str "", .str "<NA>", .str "<NA>", .str "<NA>", .str "<NA>", .str "<NA>",
   .str "<NA>", .naF, .num 100, .naF, "S"⟩

def rowW8 : GradeRow :=
  ⟨.str "s1", .str "<NA>", .str "<NA>", .str "Math", .str "<NA>", .str "Q1",
   .str "<NA>", .num 8, .num 10, .num 30, "Sheet1"⟩

def rowW18 : GradeRow :=
  ⟨.str "s1", .str "<NA>", .str "<NA>", .str "Math", .str "<NA>", .str "Q2",
   .str "<NA>", .num 18, .num 20, .num 70, "Sheet1"⟩

/-- A row with `score = 5`, `out of = 0` and no weight. -/
def rowZeroOutOf : GradeRow :=
  ⟨.str "s1", .str "<NA>", .str "<NA>", .str "Math", .str "<NA>", .str "Q1",
   .str "<NA>", .num 5, .num 0, .naF, "Sheet1"⟩

/-- A row with `score = 0`, `out of = 10` and an explicit zero weight. -/
def rowZeroWeight : GradeRow :=
  ⟨.str "s1", .str "<NA>", .str "<NA>", .str "Math", .str "<NA>", .str "Q1",
   .str "<NA>", .num 0, .num 10, .num 0, "Sheet1"⟩

/-! ## Helper lemmas -/

/-- Every synonym resolves, via the linear scan, to its own table entry;
proving this by evaluation also certifies that no spelling occurs in two
synonym lists. -/
theorem canonicalCore_of_mem :
    ∀ p ∈ SYNONYM_TABLE, ∀ c ∈ p.2, canonicalCore c = some p.1 := by decide

/-- Each canonical name is a synonym of itself. -/
theorem synonymTable_self_mem : ∀ p ∈ SYNONYM_TABLE, p.1 ∈ p.2 := by decide

/-- Standard column names are already trimmed and lowercased, and each one
occurs in some synonym list. -/
theorem standardColumns_normalized :
    ∀ col ∈ STANDARD_COLUMNS,
      pyLower (pyStrip col) = col ∧ ∃ p ∈ SYNONYM_TABLE, col ∈ p.2 := by decide

/-- `toNumericCell` only produces numbers or float NaN. -/
theorem toNumericCell_shape (c : Cell) :
    toNumericCell c = Cell.naF ∨ ∃ q, toNumericCell c = Cell.num q := by
  cases c with
  | naF => exact Or.inl rfl
  | naPd => exact Or.inl rfl
  | num q => exact Or.inr ⟨q, rfl⟩
  | str s =>
      cases h : parseDec s with
      | none => exact Or.inl (by simp [toNumericCell, h])
      | some q => exact Or.inr ⟨q, by simp [toNumericCell, h]⟩

/-- Characterization of membership in the normalized grade table: every row
is the transform of a source row with a present `student id` cell, taken
from a sheet of the workbook that is not the alias sheet. -/
theorem mem_read_workbook {wb : Workbook} {rows : List GradeRow}
    {names : List String} {r : GradeRow}
    (hok : read_workbook wb = .ok (rows, names)) (hr : r ∈ rows) :
    ∃ am nm s raw, buildAliasMap wb = .ok am ∧ (nm, s) ∈ wb ∧
      pyLower (pyStrip nm) ≠ "_aliases" ∧ raw ∈ s.rows ∧
      isCellNa (rawCell am s raw "student id") = false ∧
      r = mkGradeRow am s nm raw := by
  cases ham : buildAliasMap wb with
  | error e => rw [read_workbook, ham] at hok; cases hok
  | ok am =>
      rw [read_workbook, ham] at hok
      injection hok with hok
      have hrows : rows =
          ((wb.filter (fun p => pyLower (pyStrip p.1) != "_aliases")).map
            (fun p => normalizeSheet am p.1 p.2)).flatten := by
        have := congrArg Prod.fst hok
        simpa using this.symm
      rw [hrows] at hr
      obtain ⟨block, hblock, hrblock⟩ := List.mem_flatten.mp hr
      obtain ⟨p, hp, rfl⟩ := List.mem_map.mp hblock
      obtain ⟨hpwb, hpcond⟩ := List.mem_filter.mp hp
      obtain ⟨raw, hraw, rfl⟩ := List.mem_map.mp hrblock
      obtain ⟨hrawmem, hrawcond⟩ := List.mem_filter.mp hraw
      refine ⟨am, p.1, p.2, raw, rfl, hpwb, ?_, hrawmem, ?_, rfl⟩
      · simpa using hpcond
      · simpa using hrawcond

/-- `alookup` across the first-value projection of the query dict. -/
theorem alookup_map_headD (l : QDict) (k : String) :
    alookup k (l.map (fun p => (p.1, p.2.headD ""))) =
      (alookup k l).map (fun vs => vs.headD "") := by
  induction l with
  | nil => rfl
  | cons p t ih =>
      by_cases h : p.1 = k
      · simp [alookup, h]
      · simp only [List.map_cons, alookup, h, if_false]
        exact ih

theorem alookup_setInPlace (k : String) (v : List String) :
    ∀ t : QDict, (alookup k t).isSome →
      alookup k (t.map (fun p => if p.1 = k then (k, v) else p)) = some v := by
  intro t
  induction t with
  | nil => intro hs; simp [alookup] at hs
  | cons p t ih =>
      intro hs
      by_cases hp : p.1 = k
      · simp [alookup, hp]
      · simp only [List.map_cons, if_neg hp, alookup, hp, if_false]
        exact ih (by simpa [alookup, hp] using hs)

theorem alookup_appendNew (k : String) (v : List String) :
    ∀ t : QDict, alookup k t = none → alookup k (t ++ [(k, v)]) = some v := by
  intro t
  induction t with
  | nil => intro _; simp [alookup]
  | cons p t ih =>
      intro hn
      by_cases hp : p.1 = k
      · simp [alookup, hp] at hn
      · simp only [List.cons_append, alookup, hp, if_false]
        exact ih (by simpa [alookup, hp] using hn)

theorem alookup_setInPlace_ne (k k' : String) (v : List String) (h : k' ≠ k) :
    ∀ t : QDict,
      alookup k' (t.map (fun p => if p.1 = k then (k, v) else p)) = alookup k' t := by
  intro t
  induction t with
  | nil => rfl
  | cons p t ih =>
      by_cases hp : p.1 = k
      · have h1 : k ≠ k' := fun e => h (e.symm)
        simp [alookup, hp, if_neg h1, ih]
      · simp only [List.map_cons, if_neg hp, alookup]
        by_cases hp' : p.1 = k'
        · simp [hp']
        · simp [hp', ih]

theorem alookup_append_ne (k k' : String) (v : List String) (h : k' ≠ k) :
    ∀ t : QDict, alookup k' (t ++ [(k, v)]) = alookup k' t := by
  intro t
  have h2 : ¬k = k' := fun e => h e.symm
  induction t with
  | nil => simp [alookup, h2]
  | cons p t ih =>
      by_cases hp : p.1 = k'
      · simp [alookup, hp]
      · simp [alookup, hp, ih]

/-- `q[k] = v` makes `k` map to `v`. -/
theorem alookup_dictSet_self (q : QDict) (k : String) (v : List String) :
    alookup k (dictSet q k v) = some v := by
  by_cases hs : (alookup k q).isSome
  · rw [dictSet, if_pos hs]
    exact alookup_setInPlace k v q hs
  · rw [dictSet, if_neg hs]
    exact alookup_appendNew k v q (Option.not_isSome_iff_eq_none.mp hs)

/-- `q[k] = v` leaves other keys untouched. -/
theorem alookup_dictSet_ne (q : QDict) (k k' : String) (v : List String)
    (h : k' ≠ k) :
    alookup k' (dictSet q k v) = alookup k' q := by
  by_cases hs : (alookup k q).isSome
  · rw [dictSet, if_pos hs]
    exact alookup_setInPlace_ne k k' v h q
  · rw [dictSet, if_neg hs]
    exact alookup_append_ne k k' v h q

/-! ## Claim theorems -/

/-- C1: evaluation of the code at the failing input.  The workbook
`wbNoSecret` has no `secret` column, so after normalization the row's
`secret` is the string `"<NA>"` and is not null; the student id matches
(`gradebook_summary` with no secret returns the row), yet supplying the
secret `"1234"` excludes the row — the `isna()` guard of the secret filter
is dead and a row whose `secret` was missing in the source IS excluded,
contrary to the claim (and to the guard's evident intent). -/
theorem c1_missing_secret_row_excluded :
    read_workbook wbNoSecret = .ok ([rowNoSecret], ["Quiz1"]) ∧
    rowNoSecret.secret = Cell.str "<NA>" ∧
    isCellNa rowNoSecret.secret = false ∧
    gradebook_summary [rowNoSecret] "S1" none none = [rowNoSecret] ∧
    gradebook_summary [rowNoSecret] "S1" (some "1234") none = [] :=
  ⟨rfl, rfl, rfl, rfl, rfl⟩

/-- C2, counterexample: in the points formula a zero `out of` is NOT
treated as 100.  A single unweighted row with `score = 5`, `out of = 0`
yields NaN (summed denominator 0), not the `5` that treating `out of` as
100 would give; the same row with a weight of 1 goes through the weighted
formula, where 0 IS replaced by 100, giving `(5/100)*1/1*100 = 5`. -/
theorem c2_points_zero_out_of_counterexample :
    compute_totals [rowZeroOutOf] = none ∧
    compute_totals [{rowZeroOutOf with weight := Cell.num 1}] = some 5 := by
  constructor
  · norm_num [compute_totals, numD, outOfDiv, rowZeroOutOf, isCellNa]
  · norm_num [compute_totals, numD, outOfDiv, rowZeroOutOf, isCellNa]

/-- C3, counterexample: `read_workbook` has no credentials-sheet handling.
In a workbook whose first sheet is literally named `credentials`, that
sheet's rows ARE appended to the grade table (tagged with sheet
`"credentials"`) and its name is listed among the grade sheets read; no
separate credentials table exists in the result. -/
theorem c3_credentials_rows_in_grade_table :
    read_workbook wbCreds = .ok ([rowCredsS1, rowQuizS2], ["credentials", "Quiz"]) ∧
    rowCredsS1.sheet = "credentials" :=
  ⟨rfl, rfl⟩

/-- C4: the weighted/points switch on the spec's example rows.  With
weights 30/70 the weighted formula gives 87; with the weights stripped the
points formula gives `26/30*100 = 260/3 = 86.666...`. -/
theorem c4_weighted_vs_points_example :
    compute_totals [rowW8, rowW18] = some 87 ∧
    compute_totals [{rowW8 with weight := Cell.naF}, {rowW18 with weight := Cell.naF}] =
      some (260 / 3) := by
  constructor
  · norm_num [compute_totals, numD, outOfDiv, rowW8, rowW18, isCellNa]
  · norm_num [compute_totals, numD, outOfDiv, rowW8, rowW18, isCellNa]

/-- C5, counterexample: the zero-weight fallback CAN produce zero.  A
single row with `score = 0`, `out of = 10`, explicit `weight = 0` falls
back to the points formula and yields `0` — equal to the weight-stripped
result, but refuting the claim's "producing neither NaN ... nor zero". -/
theorem c5_zero_weight_result_zero_counterexample :
    compute_totals [rowZeroWeight] = some 0 ∧
    compute_totals [{rowZeroWeight with weight := Cell.naF}] = some 0 := by
  constructor
  · norm_num [compute_totals, numD, outOfDiv, rowZeroWeight, isCellNa]
  · norm_num [compute_totals, numD, outOfDiv, rowZeroWeight, isCellNa]

/-- C6, counterexample: a row whose `student id` cell contains only
whitespace is NOT discarded: `dropna` runs before trimming, so the row
survives normalization with an empty-string student id. -/
theorem c6_whitespace_student_id_not_discarded :
    read_workbook wbBlankId = .ok ([rowBlankId], ["S"]) ∧
    rowBlankId.studentId = Cell.str "" ∧ pyStrip " " = "" :=
  ⟨rfl, rfl, rfl⟩

/-- C10: a `None` or empty-string supplied secret disables the per-row
secret filter entirely, in `gradebook_summary` and in the student-tab row
filter: every row matching the student id passes unfiltered. -/
theorem c10_empty_secret_disables_filter (df : List GradeRow) (sid : String)
    (course : Option String) (r : GradeRow) :
    gradebook_summary df sid (some "") course = gradebook_summary df sid none course ∧
    (r ∈ gradebook_summary df sid none none ↔ r ∈ df ∧ sidMatch r sid = true) ∧
    student_sid_rows df sid "" = df.filter (fun x => sidMatch2 x sid) := by
  refine ⟨rfl, ?_, rfl⟩
  simp [gradebook_summary, truthyOpt, List.mem_filter]

/-- When the filled weight sum is zero (all weights missing or zero), both
the fallback branch and the no-weights branch of `compute_totals` compute
the same points formula. -/
theorem compute_totals_points_of_wsum_zero (q : List GradeRow) (hq : q ≠ [])
    (hwsum : (q.map (fun x => numD x.weight 0)).sum = 0) :
    compute_totals q =
      (if (q.map (fun x => numD x.outOf 100)).sum ≠ 0 then
        some (((q.map (fun x => numD x.score 0)).sum /
          (q.map (fun x => numD x.outOf 100)).sum) * 100)
      else none) := by
  have hne : q.isEmpty = false := by
    cases q with
    | nil => exact absurd rfl hq
    | cons a l => rfl
  by_cases hany : q.any (fun x => !isCellNa x.weight) = true
  · simp only [compute_totals, hne, Bool.false_eq_true, if_false, hany, if_true, hwsum]
  · simp only [compute_totals, hne, Bool.false_eq_true, if_false, hany]

/-- C2 (amended): the weighted formula treats a zero `out of` as 100 (its
per-row divisor is never zero); the points formula instead sums `out of`
values as they are (missing as 100, zero as zero) and yields NaN when that
sum is zero, rather than treating zero as 100; normalization defaults a
missing `out of` to 100 (every normalized row has a numeric `out of`). -/
theorem c2_out_of_policy (c : Cell) (q : List GradeRow) (wb : Workbook)
    (rows : List GradeRow) (names : List String) (r : GradeRow)
    (hq : q ≠ []) (hw : ∀ x ∈ q, numD x.weight 0 = 0)
    (hok : read_workbook wb = .ok (rows, names)) (hr : r ∈ rows) :
    outOfDiv c ≠ 0 ∧ outOfDiv (Cell.num 0) = 100 ∧ numD (Cell.num 0) 100 = 0 ∧
    ((q.map (fun x => numD x.outOf 100)).sum = 0 → compute_totals q = none) ∧
    (∀ am nm s raw, isCellNa (toNumericCell (rawCell am s raw "out of")) = true →
      (mkGradeRow am s nm raw).outOf = Cell.num 100) ∧
    ∃ x : Rat, r.outOf = Cell.num x := by
  refine ⟨?_, by norm_num [outOfDiv], rfl, ?_, ?_, ?_⟩
  · cases c with
    | num x =>
        simp only [outOfDiv]
        by_cases hx : x = 0
        · rw [if_pos hx]; norm_num
        · rw [if_neg hx]; exact hx
    | naF => norm_num [outOfDiv]
    | naPd => norm_num [outOfDiv]
    | str s2 => norm_num [outOfDiv]
  · intro hden
    have hwsum : (q.map (fun x => numD x.weight 0)).sum = 0 := by
      refine List.sum_eq_zero ?_
      intro y hy
      obtain ⟨x, hx, rfl⟩ := List.mem_map.mp hy
      exact hw x hx
    rw [compute_totals_points_of_wsum_zero q hq hwsum]
    simp [hden]
  · intro am nm s raw hna
    show (if isCellNa (toNumericCell (rawCell am s raw "out of")) then Cell.num 100
          else toNumericCell (rawCell am s raw "out of")) = Cell.num 100
    rw [if_pos hna]
  · obtain ⟨am, nm, s, raw, _, _, _, _, _, rfl⟩ := mem_read_workbook hok hr
    show ∃ x : Rat,
      (if isCellNa (toNumericCell (rawCell am s raw "out of")) then Cell.num 100
       else toNumericCell (rawCell am s raw "out of")) = Cell.num x
    rcases toNumericCell_shape (rawCell am s raw "out of") with hshape | ⟨x, hshape⟩
    · rw [hshape]; exact ⟨100, rfl⟩
    · rw [hshape]
      simp [isCellNa]

/-- Witness for C2's amended theorem at concrete inputs, exercising in
particular the 100-default on the `wbNoSecret` sheet, which has no `Max`
column (so its raw `out of` cell is missing). -/
theorem c2_out_of_policy_witness :
    outOfDiv (Cell.num 0) = 100 ∧ compute_totals [rowZeroOutOf] = none ∧
    (mkGradeRow [] sheetQuiz1 "Quiz1"
      [Cell.str "S1", Cell.str "Math", Cell.str "Q1", Cell.num 9]).outOf = Cell.num 100 ∧
    ∃ x : Rat, rowNoSecret.outOf = Cell.num x := by
  have h := c2_out_of_policy Cell.naPd [rowZeroOutOf] wbNoSecret [rowNoSecret]
    ["Quiz1"] rowNoSecret (List.cons_ne_nil _ _)
    (by intro x hx; rw [List.mem_singleton.mp hx]; rfl) rfl
    (List.mem_singleton.mpr rfl)
  exact ⟨h.2.1, h.2.2.2.1 (by simp [rowZeroOutOf, numD]),
    h.2.2.2.2.1 [] "Quiz1" sheetQuiz1
      [Cell.str "S1", Cell.str "Math", Cell.str "Q1", Cell.num 9] (by decide),
    h.2.2.2.2.2⟩

/-- C5 (amended): on a non-empty row set in which every weight is missing
or exactly zero, `compute_totals` returns exactly the value it returns
with the weights stripped (the points formula); the result is NaN exactly
when the points denominator is zero — it can be zero when all scores are
zero or missing. -/
theorem c5_zero_weight_fallback (q : List GradeRow) (hne : q ≠ [])
    (hw : ∀ r ∈ q, isCellNa r.weight = true ∨ r.weight = Cell.num 0) :
    compute_totals q = compute_totals (q.map (fun r => {r with weight := Cell.naF})) ∧
    (compute_totals q = none ↔ (q.map (fun r => numD r.outOf 100)).sum = 0) := by
  have hwsum : (q.map (fun x => numD x.weight 0)).sum = 0 := by
    refine List.sum_eq_zero ?_
    intro y hy
    obtain ⟨x, hx, rfl⟩ := List.mem_map.mp hy
    rcases hw x hx with h | h
    · cases hcw : x.weight with
      | naF => rfl
      | naPd => rfl
      | str s2 => rw [hcw] at h; simp [isCellNa] at h
      | num q2 => rw [hcw] at h; simp [isCellNa] at h
    · rw [h]; rfl
  have hq' : q.map (fun r => {r with weight := Cell.naF}) ≠ [] := by
    intro h0
    exact hne (List.map_eq_nil_iff.mp h0)
  have hwsum' : ((q.map (fun r => {r with weight := Cell.naF})).map
      (fun x => numD x.weight 0)).sum = 0 := by
    rw [List.map_map]
    refine List.sum_eq_zero ?_
    intro y hy
    obtain ⟨x, hx, rfl⟩ := List.mem_map.mp hy
    rfl
  constructor
  · rw [compute_totals_points_of_wsum_zero q hne hwsum,
        compute_totals_points_of_wsum_zero _ hq' hwsum']
    simp only [List.map_map]
    rfl
  · rw [compute_totals_points_of_wsum_zero q hne hwsum]
    by_cases hden : (q.map (fun r => numD r.outOf 100)).sum = 0
    · simp [hden]
    · simp [hden]

/-- Witness for C5's amended theorem at concrete inputs. -/
theorem c5_zero_weight_fallback_witness :
    compute_totals [rowZeroWeight] =
      compute_totals ([rowZeroWeight].map (fun r => {r with weight := Cell.naF})) :=
  (c5_zero_weight_fallback [rowZeroWeight] (List.cons_ne_nil _ _)
    (by intro r hr; rw [List.mem_singleton.mp hr]; right; rfl)).1

/-- C3 (amended): `read_workbook` performs no credentials-sheet selection
at all: every sheet not named `_aliases` (trimmed, case-insensitive) —
including one literally named `credentials` — is normalized as a grade
sheet, its name is listed among the sheets read, and all of its normalized
rows are appended to the single grade table; no credentials table is
produced. -/
theorem c3_all_sheets_are_grade_sheets (wb : Workbook) (am : AliasMap)
    (rows : List GradeRow) (names : List String)
    (ham : buildAliasMap wb = .ok am)
    (hok : read_workbook wb = .ok (rows, names)) :
    names = (wb.filter (fun p => pyLower (pyStrip p.1) != "_aliases")).map (fun p => p.1) ∧
    ∀ p ∈ wb, pyLower (pyStrip p.1) ≠ "_aliases" →
      ∀ r ∈ normalizeSheet am p.1 p.2, r ∈ rows := by
  rw [read_workbook, ham] at hok
  injection hok with hok
  injection hok with hrw hn
  constructor
  · exact hn.symm
  · intro p hp hcond r hr
    rw [← hrw]
    refine List.mem_flatten.mpr ⟨normalizeSheet am p.1 p.2, ?_, hr⟩
    exact List.mem_map_of_mem _ (List.mem_filter.mpr ⟨hp, by simpa using hcond⟩)

/-- Witness for C3's amended theorem at the `credentials`-named workbook. -/
theorem c3_all_sheets_are_grade_sheets_witness :
    (["credentials", "Quiz"] : List String) =
      (wbCreds.filter (fun p => pyLower (pyStrip p.1) != "_aliases")).map (fun p => p.1) ∧
    rowCredsS1 ∈ [rowCredsS1, rowQuizS2] := by
  have h := c3_all_sheets_are_grade_sheets wbCreds [] [rowCredsS1, rowQuizS2]
    ["credentials", "Quiz"] rfl rfl
  exact ⟨h.1, h.2 ("credentials", sheetCreds) (by decide) (by decide) rowCredsS1 (by decide)⟩

/-- C6 (amended): during normalization of a grade sheet, exactly the rows
whose raw `student id` cell is missing (null) are discarded — the count of
surviving rows equals the count of source rows with a present `student id`
cell, and every surviving row is the direct transform of such a source row
(no placeholder identity is ever substituted).  A row whose `student id`
cell holds a non-null whitespace-only string is NOT discarded
(see the counterexample): it survives with an empty trimmed id. -/
theorem c6_missing_id_rows_dropped (am : AliasMap) (name : String) (s : Sheet) :
    (normalizeSheet am name s).length =
      s.rows.countP (fun raw => !isCellNa (rawCell am s raw "student id")) ∧
    ∀ r ∈ normalizeSheet am name s,
      ∃ raw ∈ s.rows, isCellNa (rawCell am s raw "student id") = false ∧
        r = mkGradeRow am s name raw := by
  constructor
  · simp [normalizeSheet, List.countP_eq_length_filter]
  · intro r hr
    obtain ⟨raw, hraw, rfl⟩ := List.mem_map.mp hr
    obtain ⟨hmem, hcond⟩ := List.mem_filter.mp hraw
    exact ⟨raw, hmem, by simpa using hcond, rfl⟩

/-- Witness for C6's amended theorem at the whitespace-id sheet. -/
theorem c6_missing_id_rows_dropped_witness :
    ∃ raw ∈ sheetBlankId.rows,
      isCellNa (rawCell [] sheetBlankId raw "student id") = false ∧
      rowBlankId = mkGradeRow [] sheetBlankId "S" raw :=
  (c6_missing_id_rows_dropped [] "S" sheetBlankId).2 rowBlankId (by decide)

/-- C9: in every table produced by `read_workbook`, the six string columns
hold strings (never nulls); a cell that was blank or absent in the source
is string-coerced to the non-empty textual rendering of the missing value
("nan" / "<NA>"), so in particular every row's `secret` is non-null and
the `isna()` null-check in the secret filter is always false. -/
theorem c9_string_columns_never_null (wb : Workbook)
    (rows : List GradeRow) (names : List String) (r : GradeRow) (c : Cell)
    (hok : read_workbook wb = .ok (rows, names)) (hr : r ∈ rows)
    (hna : isCellNa c = true) :
    (∃ s, r.firstName = Cell.str s) ∧ (∃ s, r.lastName = Cell.str s) ∧
    (∃ s, r.course = Cell.str s) ∧ (∃ s, r.term = Cell.str s) ∧
    (∃ s, r.assessment = Cell.str s) ∧ (∃ s, r.secret = Cell.str s) ∧
    isCellNa r.secret = false ∧
    (∀ sec, secretKeep r sec = (pyStrip (pyStr r.secret) == pyStrip sec)) ∧
    strField c = Cell.str (pyStrip (pyStr c)) ∧ pyStrip (pyStr c) ≠ "" := by
  obtain ⟨am, nm, s, raw, _, _, _, _, _, rfl⟩ := mem_read_workbook hok hr
  refine ⟨⟨_, rfl⟩, ⟨_, rfl⟩, ⟨_, rfl⟩, ⟨_, rfl⟩, ⟨_, rfl⟩, ⟨_, rfl⟩, rfl, ?_, rfl, ?_⟩
  · intro sec
    have hfalse : isCellNa (mkGradeRow am s nm raw).secret = false := rfl
    simp [secretKeep, hfalse]
  · cases c with
    | naF => decide
    | naPd => decide
    | str s2 => simp [isCellNa] at hna
    | num q2 => simp [isCellNa] at hna

/-- Witness for C9 at a concrete workbook and missing cell. -/
theorem c9_string_columns_never_null_witness :
    isCellNa rowNoSecret.secret = false ∧ pyStrip (pyStr Cell.naF) ≠ "" := by
  have h := c9_string_columns_never_null wbNoSecret [rowNoSecret] ["Quiz1"]
    rowNoSecret Cell.naF rfl (List.mem_singleton.mpr rfl) rfl
  exact ⟨h.2.2.2.2.2.2.1, h.2.2.2.2.2.2.2.2.2⟩

/-- C7: canonicalization is deterministic with alias precedence.  Two
headers whose trimmed/lowercased forms are synonyms of the same field (and
not rebound by the alias map) canonicalize to that same field; an alias-map
entry always overrides the built-in synonym scan; a header matching
neither yields no canonical name and its column label never collides with
a standard column, so the column is not carried into the normalized
table. -/
theorem c7_canonicalization (am : AliasMap) (h1 h2 : String) :
    (∀ f syns, (f, syns) ∈ SYNONYM_TABLE →
       pyLower (pyStrip h1) ∈ syns → pyLower (pyStrip h2) ∈ syns →
       alookup (pyLower (pyStrip h1)) am = none →
       alookup (pyLower (pyStrip h2)) am = none →
       canonical am h1 = some f ∧ canonical am h2 = some f) ∧
    (∀ k, alookup (pyLower (pyStrip h1)) am = some k → canonical am h1 = some k) ∧
    (alookup (pyLower (pyStrip h1)) am = none →
     (∀ p ∈ SYNONYM_TABLE, pyLower (pyStrip h1) ∉ p.2) →
     canonical am h1 = none ∧ ∀ col ∈ STANDARD_COLUMNS, labelOf am h1 ≠ col) := by
  have core : ∀ h : String, alookup (pyLower (pyStrip h)) am = none →
      canonical am h = canonicalCore (pyLower (pyStrip h)) := by
    intro h hnone
    simp only [canonical]
    rw [hnone]
  refine ⟨?_, ?_, ?_⟩
  · intro f syns hmem hs1 hs2 hn1 hn2
    have e1 := canonicalCore_of_mem (f, syns) hmem (pyLower (pyStrip h1)) hs1
    have e2 := canonicalCore_of_mem (f, syns) hmem (pyLower (pyStrip h2)) hs2
    exact ⟨by rw [core h1 hn1]; exact e1, by rw [core h2 hn2]; exact e2⟩
  · intro k hk
    simp only [canonical]
    rw [hk]
  · intro hn hno
    have hcore : canonicalCore (pyLower (pyStrip h1)) = none := by
      unfold canonicalCore
      rw [List.find?_eq_none.mpr ?_]
      · rfl
      · intro p hp hcon
        have hcon' : pyLower (pyStrip h1) = p.1 ∨ pyLower (pyStrip h1) ∈ p.2 := by
          simpa using hcon
        rcases hcon' with hbeq | hcont
        · exact hno p hp (by rw [hbeq]; exact synonymTable_self_mem p hp)
        · exact hno p hp hcont
    have hcan : canonical am h1 = none := by rw [core h1 hn]; exact hcore
    have hlab : labelOf am h1 = h1 := by
      unfold labelOf canonicalT
      rw [hcan]
      rfl
    refine ⟨hcan, ?_⟩
    intro col hcol he
    obtain ⟨hnorm, p, hp, hmem⟩ := standardColumns_normalized col hcol
    have hh1 : h1 = col := by rw [← hlab]; exact he
    have : pyLower (pyStrip h1) ∈ p.2 := by rw [hh1, hnorm]; exact hmem
    exact hno p hp this

/-- Witness for C7 at concrete headers and alias maps. -/
theorem c7_canonicalization_witness :
    canonical [("custom", "course")] "Mark" = some "score" ∧
    canonical [("mark", "secret")] "Mark" = some "secret" ∧
    canonical [] "Favorite Color" = none := by
  refine ⟨?_, ?_, ?_⟩
  · exact ((c7_canonicalization [("custom", "course")] "Mark" "Points").1
      "score" ["score", "mark", "points", "grade"] (by decide) (by decide)
      (by decide) (by decide) (by decide)).1
  · exact (c7_canonicalization [("mark", "secret")] "Mark" "x").2.1 "secret" (by decide)
  · exact ((c7_canonicalization [] "Favorite Color" "x").2.2 rfl (by decide)).1

/-- C8: the cloud-URL coercion is a pure transform.  A parse failure
returns the input unchanged.  On the parsed query dict: a host whose
netloc ends in `sharepoint.com` or `1drv.ms` gets `download=1` appended
only when no `download` parameter is present (an existing value is kept);
a host ending in `dropbox.com` gets `dl=1` forced, overwriting any
existing value; every other parameter is preserved with only the first of
its repeated values kept. -/
theorem c8_url_coercion (parse : String → Option ParsedUrl)
    (unparse : ParsedUrl → List (String × String) → String)
    (u : String) (netloc : String) (q : QDict) :
    (parse u = none → coerce_download_url parse unparse u = u) ∧
    ((pyEndsWith netloc "sharepoint.com" || pyEndsWith netloc "1drv.ms") = true →
      (alookup "download" q = none →
        alookup "download" (transformQuery netloc q) = some "1") ∧
      (∀ vs, alookup "download" q = some vs →
        alookup "download" (transformQuery netloc q) = some (vs.headD ""))) ∧
    (pyEndsWith netloc "dropbox.com" = true →
      alookup "dl" (transformQuery netloc q) = some "1") ∧
    (∀ k, k ≠ "download" → k ≠ "dl" →
      alookup k (transformQuery netloc q) = (alookup k q).map (fun vs => vs.headD "")) := by
  have hdlq : ∀ b : QDict,
      alookup "download" (if pyEndsWith netloc "dropbox.com" = true
        then dictSet b "dl" ["1"] else b) = alookup "download" b := by
    intro b
    by_cases hdb : pyEndsWith netloc "dropbox.com" = true
    · rw [if_pos hdb, alookup_dictSet_ne b "dl" "download" ["1"] (by decide)]
    · rw [if_neg hdb]
  refine ⟨?_, ?_, ?_, ?_⟩
  · intro hp
    unfold coerce_download_url
    rw [hp]
  · intro hsp
    constructor
    · intro hnone
      simp only [transformQuery, hsp, if_true, hnone, Option.isNone_none]
      rw [alookup_map_headD, hdlq, alookup_dictSet_self]
      rfl
    · intro vs hvs
      simp only [transformQuery, hsp, if_true, hvs, Option.isNone_some,
        Bool.false_eq_true, if_false]
      rw [alookup_map_headD, hdlq, hvs]
      rfl
  · intro hdb
    simp only [transformQuery, hdb, if_true]
    rw [alookup_map_headD, alookup_dictSet_self]
    rfl
  · intro k hkd hkl
    simp only [transformQuery]
    rw [alookup_map_headD]
    have e1 : ∀ b : QDict,
        alookup k (if pyEndsWith netloc "dropbox.com" = true
          then dictSet b "dl" ["1"] else b) = alookup k b := by
      intro b
      by_cases hdb : pyEndsWith netloc "dropbox.com" = true
      · rw [if_pos hdb, alookup_dictSet_ne b "dl" k ["1"] hkl]
      · rw [if_neg hdb]
    rw [e1]
    have e2 : alookup k
        (if (pyEndsWith netloc "sharepoint.com" || pyEndsWith netloc "1drv.ms") = true
          then (if (alookup "download" q).isNone = true
            then dictSet q "download" ["1"] else q)
          else q) = alookup k q := by
      by_cases hsp : (pyEndsWith netloc "sharepoint.com" || pyEndsWith netloc "1drv.ms") = true
      · rw [if_pos hsp]
        by_cases hdl : (alookup "download" q).isNone = true
        · rw [if_pos hdl, alookup_dictSet_ne q "download" k ["1"] hkd]
        · rw [if_neg hdl]
      · rw [if_neg hsp]
    rw [e2]

/-- Witness for C8 at concrete URLs, hosts and query dicts. -/
theorem c8_url_coercion_witness :
    coerce_download_url (fun _ => none) (fun _ _ => "") "::" = "::" ∧
    alookup "download" (transformQuery "a.sharepoint.com" []) = some "1" ∧
    alookup "download"
      (transformQuery "a.sharepoint.com" [("download", ["0", "9"])]) = some "0" ∧
    alookup "dl" (transformQuery "www.dropbox.com" [("dl", ["0"])]) = some "1" ∧
    alookup "x" (transformQuery "example.com" [("x", ["a", "b"])]) = some "a" := by
  refine ⟨(c8_url_coercion (fun _ => none) (fun _ _ => "") "::" "" []).1 rfl, ?_, ?_, ?_, ?_⟩
  · exact ((c8_url_coercion (fun _ => none) (fun _ _ => "") "u" "a.sharepoint.com" []).2.1
      (by decide)).1 rfl
  · exact ((c8_url_coercion (fun _ => none) (fun _ _ => "") "u" "a.sharepoint.com"
      [("download", ["0", "9"])]).2.1 (by decide)).2 ["0", "9"] (by decide)
  · exact (c8_url_coercion (fun _ => none) (fun _ _ => "") "u" "www.dropbox.com"
      [("dl", ["0"])]).2.2.1 (by decide)
  · exact (c8_url_coercion (fun _ => none) (fun _ _ => "") "u" "example.com"
      [("x", ["a", "b"])]).2.2.2 "x" (by decide) (by decide)
